import Mathlib

/-!
Verification of the Netflix-titles search/recommendation service.

This file shallowly embeds the core of the application (`app/services.py`,
`app/ai_service.py`, `app/youtube_service.py`, `app/constants.py`,
`app/models.py`) in Lean and proves/refutes the frozen specification claims.

Modelling conventions:
* Python `float` scores are modelled as exact rationals (`ℚ`); the code only
  adds/multiplies small decimal constants, so no claim hinges on binary
  floating-point rounding.
* Python strings are modelled as `String`; `str.lower` is modelled
  character-wise with `Char.toLower` (the data is ASCII), `str.strip` by
  trimming whitespace characters on both ends, and the substring operator
  `needle in hay` by `substrB`.
* `pandas` DataFrames are modelled as `List Row` where `Row` is one record of
  the loaded CSV after `_prepare_data` ran (`fillna('')` makes every text cell
  a plain string; the derived `<col>_lower` columns are recomputed on the fly
  with `pyLower`).  The auxiliary LLM enrichment columns (`sentiment_llm`,
  `score_llm`, `critique_llm`) are not represented: no claim mentions them and
  the code never reads them back into any claimed behaviour except as an
  opaque saved critique string.
* Network calls (YouTube search / video details, the optional Groq LLM) are
  modelled as oracle functions supplied in a configuration record; `none`
  results model both "not found" and any transport failure, which the code
  treats identically.
* `pandas.Series.str.contains` interprets the query as a regular expression.
  We model the fragment of Python regexes actually reachable by plain
  queries: patterns built from literal characters and the metacharacter `.`
  (`regexSearch`); theorems about search quantify only over queries inside
  this fragment (`parsePattern` succeeds).
* Python exceptions that escape a function are modelled with
  `Except String`; an `.error` value corresponds to the call raising.
-/

/-! ### Python string primitives -/

/-- Model of Python's `str.lower` (character-wise ASCII lowering). -/
def pyLower (s : String) : String := ⟨s.data.map Char.toLower⟩

/-- Model of Python's `str.strip()`: drop whitespace from both ends. -/
def pyStrip (s : String) : String :=
  ⟨((s.data.dropWhile Char.isWhitespace).reverse.dropWhile Char.isWhitespace).reverse⟩

/-- Model of Python's substring test `needle in hay` on `List Char`. -/
def substrL (needle : List Char) : List Char → Bool
  | [] => needle.isPrefixOf []
  | c :: cs => needle.isPrefixOf (c :: cs) || substrL needle cs

/-- Model of Python's substring test `needle in hay` on `String`. -/
def substrB (needle hay : String) : Bool := substrL needle.data hay.data

/-- First occurrence split: `splitFirst sep s = some (pre, post)` when
`s = pre ++ sep ++ post` with `pre` minimal; `none` when `sep` does not occur.
Mirrors the effect of Python's `s.split(sep)` on its first component. -/
def splitFirst (sep : List Char) : List Char → Option (List Char × List Char)
  | [] => none
  | c :: cs =>
    if sep.isPrefixOf (c :: cs) then some ([], (c :: cs).drop sep.length)
    else match splitFirst sep cs with
      | some (pre, post) => some (c :: pre, post)
      | none => none

/-- Fuel-driven worker for `afterLast` (structural recursion keeps it
kernel-reducible; the fuel `s.length + 1` always suffices because each
recursive step consumes at least one separator occurrence). -/
def afterLastF (sep : List Char) : Nat → List Char → List Char
  | 0, s => s
  | fuel + 1, s =>
    match splitFirst sep s with
    | none => s
    | some (_, post) => afterLastF sep fuel post

/-- The text after the last occurrence of `sep` (the whole string when `sep`
does not occur): Python's `s.split(sep)[-1]`. -/
def afterLast (sep : List Char) (s : List Char) : List Char :=
  afterLastF sep (s.length + 1) s

/-- The text before the first occurrence of `sep` (the whole string when `sep`
does not occur): Python's `s.split(sep)[0]`. -/
def beforeFirst (sep : List Char) (s : List Char) : List Char :=
  match splitFirst sep s with
  | none => s
  | some (pre, _) => pre

/-! ### Python's `min`/`max` on floats (modelled on `ℚ`)

Mathlib's `min`/`max` on `ℚ` do not reduce in the kernel, so the embedding
uses explicit conditionals (proved equal to `min`/`max` below). -/

/-- Python `min(a, b)` for numbers. -/
def pyMin (a b : ℚ) : ℚ := if b < a then b else a

/-- Python `max(a, b)` for numbers. -/
def pyMax (a b : ℚ) : ℚ := if b > a then b else a


/-! ### The regular-expression fragment used by `Series.str.contains`

`_search_all_columns` and `_search_specific_column` call
`Series.str.contains(query)`, whose default is `regex=True`: the query is a
Python regular expression.  We model the fragment consisting of literal
characters plus the metacharacter `.` (any character except newline); queries
containing any other metacharacter are outside the model and the search
theorems exclude them. -/

inductive RTok where
  | dot : RTok
  | lit : Char → RTok
deriving DecidableEq

/-- Characters that are special in Python regular expressions. -/
def isRegexMeta (c : Char) : Bool :=
  c = '.' || c = '^' || c = '$' || c = '*' || c = '+' || c = '?' ||
  c = '{' || c = '}' || c = '[' || c = ']' || c = '\\' || c = '|' ||
  c = '(' || c = ')'

def parseTok (c : Char) : Option RTok :=
  if c = '.' then some RTok.dot
  else if isRegexMeta c then none
  else some (RTok.lit c)

/-- Parse a pattern inside the modelled regex fragment. -/
def parsePattern (p : String) : Option (List RTok) := p.data.mapM parseTok

def tokMatch : RTok → Char → Bool
  | RTok.dot, c => c ≠ '\n'
  | RTok.lit a, c => a == c

/-- Match the token list against a prefix of the text. -/
def matchToks : List RTok → List Char → Bool
  | [], _ => true
  | _ :: _, [] => false
  | t :: ts, c :: cs => tokMatch t c && matchToks ts cs

/-- Model of `re.search` for the fragment: does the pattern match anywhere? -/
def regexSearch (toks : List RTok) : List Char → Bool
  | [] => matchToks toks []
  | c :: cs => matchToks toks (c :: cs) || regexSearch toks cs

/-- Model of `Series.str.contains(pattern)` (`regex=True`).  Outside the
modelled fragment (`parsePattern pattern = none`) the value is unspecified;
all search theorems restrict the query to the fragment. -/
def pyContains (pattern s : String) : Bool :=
  regexSearch ((parsePattern pattern).getD []) s.data

/-! ### Data model (`app/models.py`) -/

/-- Embeds `models.NetflixTitle`. -/
structure NetflixTitle where
  show_id : String
  type : String
  title : String
  director : Option String := none
  cast : Option String := none
  country : Option String := none
  date_added : Option String := none
  release_year : Option Int := none
  rating : Option String := none
  duration : Option String := none
  listed_in : Option String := none
  description : Option String := none
deriving DecidableEq

/-- Embeds `models.VideoInfo`. -/
structure VideoInfo where
  video_id : String
  title : String
  description : String
  thumbnail_url : String
  duration : String
  view_count : Int
  published_at : String
  channel_title : String
deriving DecidableEq

/-- Embeds `models.ContentAnalysis`. -/
structure ContentAnalysis where
  sentiment_score : ℚ
  genre_prediction : List String
  target_audience : String
  content_warnings : List String
  recommendation_score : ℚ
  similar_titles : List String
deriving DecidableEq

/-- Embeds `models.NetflixTitleWithMedia`. -/
structure NetflixTitleWithMedia where
  title : NetflixTitle
  trailer : Option VideoInfo := none
  analysis : Option ContentAnalysis := none
deriving DecidableEq

/-- Embeds `models.SearchRequest`.  `smart_query` models the optional duck-typed
attribute probed with `hasattr(request, 'smart_query')` (absent ≡ `false`).
`limit` is modelled as a natural number (the API always sends a non-negative
limit). -/
structure SearchRequest where
  query : String
  search_type : String := "all"
  limit : Nat := 10
  include_trailers : Bool := false
  include_analysis : Bool := false
  smart_query : Bool := false
deriving DecidableEq

/-- Embeds `models.SearchResponse`. -/
structure SearchResponse where
  results : List NetflixTitleWithMedia
  total_count : Nat
  query : String
  search_type : String
deriving DecidableEq

/-- Embeds `models.UserPreferences`. -/
structure UserPreferences where
  preferred_genres : List String := []
  preferred_years : List Int := []
  preferred_rating : List String := []
  max_duration : Option Int := none
  include_trailers : Bool := true
  include_analysis : Bool := true
deriving DecidableEq

/-- Embeds `models.RecommendationRequest`. -/
structure RecommendationRequest where
  preferences : UserPreferences
  limit : Nat := 10
deriving DecidableEq

/-- Embeds `models.RecommendationResponse`. -/
structure RecommendationResponse where
  recommendations : List NetflixTitleWithMedia
  total_count : Nat
  user_preferences : UserPreferences
deriving DecidableEq

/-- Embeds `ai_service.Recommendation`. -/
structure Recommendation where
  title : String
  score : ℚ
  reason : String
  genre_match : List String
deriving DecidableEq

/-! ### Constants (`app/constants.py`) -/

/-- Embeds `constants.COLUMNAS_BUSQUEDA`. -/
def COLUMNAS_BUSQUEDA : List String :=
  ["title", "director", "cast", "description", "country", "listed_in"]

/-- Embeds `constants.GENEROS_POPULARES`. -/
def GENEROS_POPULARES : List String :=
  ["Dramas", "Comedies", "Documentaries", "Action & Adventure",
   "International TV Shows", "Romantic TV Shows", "Children & Family Movies",
   "Thrillers", "Horror Movies", "Anime Features"]

/-! ### AIService heuristics (`app/ai_service.py`) -/

/-- Embeds `AIService._load_genre_keywords` (a `dict`; Python dicts preserve
insertion order, kept here as the declaration order of the pairs). -/
def genreKeywords : List (String × List String) :=
  [("Dramas", ["drama", "emotional", "serious", "tragic", "intense"]),
   ("Comedies", ["comedy", "funny", "humor", "laugh", "hilarious"]),
   ("Action & Adventure", ["action", "adventure", "thrilling", "exciting", "explosive"]),
   ("Thrillers", ["thriller", "suspense", "mystery", "tension", "suspenseful"]),
   ("Horror Movies", ["horror", "scary", "frightening", "terrifying", "spooky"]),
   ("Romantic TV Shows", ["romance", "romantic", "love", "relationship", "dating"]),
   ("Documentaries", ["documentary", "real", "factual", "educational", "informative"]),
   ("Children & Family Movies", ["family", "children", "kid", "friendly", "wholesome"]),
   ("Anime Features", ["anime", "japanese", "animation", "manga", "cartoon"])]

/-- Embeds `AIService._load_sentiment_keywords`, positive lexicon. -/
def positiveWords : List String :=
  ["amazing", "brilliant", "excellent", "fantastic", "great", "wonderful"]

/-- Embeds `AIService._load_sentiment_keywords`, negative lexicon. -/
def negativeWords : List String :=
  ["terrible", "awful", "horrible", "bad", "disappointing", "boring"]

/-- Embeds `AIService._load_sentiment_keywords`, neutral lexicon. -/
def neutralWords : List String :=
  ["average", "okay", "decent", "standard", "normal"]

/-- Embeds `AIService._load_content_warnings` (insertion order preserved). -/
def contentWarningKeywords : List (String × List String) :=
  [("violence", ["violence", "blood", "gore", "fighting", "war"]),
   ("language", ["profanity", "swearing", "cursing", "explicit"]),
   ("sexual_content", ["sexual", "nudity", "adult", "mature"]),
   ("drugs", ["drugs", "alcohol", "smoking", "substance"])]

/-- Number of lexicon words occurring in `text`
(`sum(1 for word in words if word in text)`). -/
def countHits (words : List String) (text : String) : Nat :=
  (words.filter (fun w => substrB w text)).length

/-- Embeds `AIService._analyze_sentiment`. -/
def analyzeSentiment (text : String) : ℚ :=
  let positive_count := countHits positiveWords text
  let negative_count := countHits negativeWords text
  let neutral_count := countHits neutralWords text
  let total_keywords := positive_count + negative_count + neutral_count
  if total_keywords = 0 then 1/2
  else
    let score : ℚ := ((positive_count : ℚ) - (negative_count : ℚ)) / (total_keywords : ℚ)
    pyMax 0 (pyMin 1 ((score + 1) / 2))

/-- Embeds `AIService._predict_genres`: count keyword hits per genre, keep genres
with a positive count, stable-sort descending by count (Python's `sorted`
with `reverse=True` is stable, so ties keep dict insertion order), take 3. -/
def predictGenres (text : String) : List String :=
  let genre_scores := genreKeywords.filterMap (fun p =>
    let score := (p.2.filter (fun kw => substrB kw text)).length
    if score > 0 then some (p.1, score) else none)
  let sorted_genres := genre_scores.mergeSort (fun a b => b.2 ≤ a.2)
  (sorted_genres.map Prod.fst).take 3

/-- Embeds `AIService._determine_target_audience` rating table. -/
def ratingMapping : List (String × String) :=
  [("TV-Y", "Niños pequeños"), ("TV-Y7", "Niños 7+"), ("TV-G", "Audiencia general"),
   ("TV-PG", "Niños con supervisión parental"), ("TV-14", "Adolescentes 14+"),
   ("TV-MA", "Adultos"), ("G", "Audiencia general"),
   ("PG", "Niños con supervisión parental"), ("PG-13", "Adolescentes 13+"),
   ("R", "Adultos"), ("NC-17", "Solo adultos")]

/-- Python truthiness of an optional string (`None` and `""` are falsy). -/
def optTruthy (o : Option String) : Bool := o.getD "" ≠ ""

/-- Embeds `AIService._determine_target_audience`. -/
def determineTargetAudience (rating : Option String) (_text : String) : String :=
  if ¬ optTruthy rating then "General"
  else match (ratingMapping.find? (fun p => p.1 == rating.getD "")) with
    | some p => p.2
    | none => "General"

/-- Embeds `AIService._detect_content_warnings`. -/
def detectContentWarnings (text : String) : List String :=
  ((contentWarningKeywords.filter
      (fun p => p.2.any (fun kw => substrB kw text))).map Prod.fst)

/-- The hard-coded `current_year = 2024` inside
`AIService._calculate_recommendation_score`. -/
def currentYear : Int := 2024

/-- The recency bonus of `AIService._calculate_recommendation_score`;
`if title.release_year:` is Python truthiness, so year `0`/`None` give no
bonus. -/
def yearBonus (release_year : Option Int) : ℚ :=
  match release_year with
  | none => 0
  | some y =>
    if y ≠ 0 then
      if y ≥ currentYear - 5 then 1/5
      else if y ≥ currentYear - 10 then 1/10
      else 0
    else 0

/-- Embeds `AIService._calculate_recommendation_score`. -/
def calculateRecommendationScore (sentiment : ℚ) (genres : List String)
    (title : NetflixTitle) : ℚ :=
  let base_score := sentiment * (2/5)
  let genre_bonus : ℚ :=
    ((genres.filter (fun g => GENEROS_POPULARES.contains g)).length : ℚ) * (1/10)
  let year_bonus := yearBonus title.release_year
  pyMin 1 (base_score + genre_bonus + year_bonus)

/-- Embeds `AIService._find_similar_titles` (keyed on the raw, case-sensitive
`listed_in` string). -/
def findSimilarTitles (title : NetflixTitle) : List String :=
  let similar :=
    match title.listed_in with
    | none => []
    | some l =>
      (if substrB "Drama" l then ["Breaking Bad", "The Crown", "Ozark"] else []) ++
      (if substrB "Comedy" l then ["The Office", "Friends", "Parks and Recreation"] else []) ++
      (if substrB "Action" l then ["The Witcher", "Stranger Things", "Money Heist"] else [])
  similar.take 3

/-- The combined text blob of `AIService.analyze_content`:
`f"{title.title} {title.description or ''} {title.listed_in or ''}"`,
lower-cased. -/
def combinedText (title : NetflixTitle) : String :=
  pyLower (title.title ++ " " ++ title.description.getD "" ++ " " ++ title.listed_in.getD "")

/-- The heuristic (non-LLM) body of `AIService.analyze_content`.  None of its
steps can raise, so the surrounding `try`/`except` never produces the
all-zero fallback on this path. -/
def analyzeContentHeuristic (title : NetflixTitle) : ContentAnalysis :=
  let text_lower := combinedText title
  let sentiment_score := analyzeSentiment text_lower
  let genre_prediction := predictGenres text_lower
  { sentiment_score := sentiment_score
    genre_prediction := genre_prediction
    target_audience := determineTargetAudience title.rating text_lower
    content_warnings := detectContentWarnings text_lower
    recommendation_score := calculateRecommendationScore sentiment_score genre_prediction title
    similar_titles := findSimilarTitles title }

/-- A Groq client as seen by `analyze_content`: `none` models
`self.groq_client is None` (no key, import failure or constructor failure);
`some f` models a configured client, where `f t = none` is any failure of
`_analyze_with_groq` (transport error, malformed JSON, parse error — all are
caught and turned into `None`) and `f t = some r` is a successful structured
reply already validated/clamped into a `ContentAnalysis`. -/
def GroqClient := Option (NetflixTitle → Option ContentAnalysis)

/-- Embeds `AIService.analyze_content`. -/
def analyzeContent (client : GroqClient) (title : NetflixTitle) : ContentAnalysis :=
  match client with
  | some f =>
    match f title with
    | some groq_result => groq_result
    | none => analyzeContentHeuristic title
  | none => analyzeContentHeuristic title

/-- The preferred-years adjustment inside
`AIService._calculate_personalized_score`.  Python evaluates
`year_range[0] <= title.release_year <= year_range[1]` left-to-right: with an
empty preferred-years list it raises `IndexError` immediately; with a
one-element list it raises only when the first comparison succeeds.
`if ... and title.release_year` is Python truthiness (`None`/`0` skip). -/
def personalizedYearStep (score : ℚ) (release_year : Option Int)
    (preferred_years : List Int) : Except String ℚ :=
  match release_year with
  | none => Except.ok score
  | some y =>
    if y ≠ 0 then
      match preferred_years with
      | [] => Except.error "IndexError: list index out of range"
      | [y0] =>
        if y0 ≤ y then Except.error "IndexError: list index out of range"
        else Except.ok score
      | y0 :: y1 :: _ =>
        if y0 ≤ y ∧ y ≤ y1 then Except.ok (score + 1/5) else Except.ok score
    else Except.ok score

/-- Embeds `AIService._calculate_personalized_score`.  The preferences dict always
contains the three keys (it is `UserPreferences.dict()`), so the `in` checks
are always true.  A raised `IndexError` propagates (modelled as `.error`). -/
def calculatePersonalizedScore (title : NetflixTitle) (analysis : ContentAnalysis)
    (preferences : UserPreferences) : Except String ℚ :=
  let score := analysis.recommendation_score
  let score :=
    if analysis.genre_prediction.any (fun g => preferences.preferred_genres.contains g) then
      score + 3/10
    else score
  match personalizedYearStep score title.release_year preferences.preferred_years with
  | Except.error e => Except.error e
  | Except.ok score =>
    let score :=
      if optTruthy title.rating ∧ preferences.preferred_rating.contains (title.rating.getD "") then
        score + 1/10
      else score
    Except.ok (pyMin 1 score)

/-- Embeds `AIService._generate_recommendation_reason`. -/
def generateRecommendationReason (title : NetflixTitle) (analysis : ContentAnalysis)
    (_preferences : UserPreferences) : String :=
  let reasons : List String :=
    (if analysis.sentiment_score > 7/10 then ["Muy bien valorado"]
     else if analysis.sentiment_score > 1/2 then ["Bien valorado"] else []) ++
    (if analysis.genre_prediction ≠ [] then
       ["Género: " ++ String.intercalate ", " analysis.genre_prediction] else []) ++
    (match title.release_year with
     | some y => if y ≠ 0 ∧ y ≥ 2020 then ["Contenido reciente"] else []
     | none => [])
  let reasons := if reasons = [] then ["Basado en tus preferencias"] else reasons
  String.intercalate ". " reasons

/-- The candidate loop of `AIService.get_recommendations`: analyze each title,
compute the personalized score, keep it only when the score exceeds `0.3`.
Candidates are processed in input order; a raised `IndexError` propagates. -/
def buildRecs (client : GroqClient) (preferences : UserPreferences) :
    List NetflixTitle → Except String (List Recommendation)
  | [] => Except.ok []
  | title :: rest =>
    let analysis := analyzeContent client title
    match calculatePersonalizedScore title analysis preferences with
    | Except.error e => Except.error e
    | Except.ok score =>
      match buildRecs client preferences rest with
      | Except.error e => Except.error e
      | Except.ok tail =>
        if score > 3/10 then
          Except.ok ({ title := title.title, score := score,
                       reason := generateRecommendationReason title analysis preferences,
                       genre_match := analysis.genre_prediction } :: tail)
        else
          Except.ok tail

/-- Embeds `AIService.get_recommendations`: build the thresholded list, stable-sort
descending by score (`list.sort(key=..., reverse=True)` is stable) and keep
the top 10. -/
def aiGetRecommendations (client : GroqClient) (preferences : UserPreferences)
    (available_titles : List NetflixTitle) : Except String (List Recommendation) :=
  match buildRecs client preferences available_titles with
  | Except.error e => Except.error e
  | Except.ok recommendations =>
    Except.ok ((recommendations.mergeSort (fun a b => b.score ≤ a.score)).take 10)

/-! ### YouTube service (`app/youtube_service.py`) -/

/-- The YouTube service as the core sees it.  `configured` models
`api_key and api_key != "TU_API_KEY_AQUI"`; `search` models the outcome of
`search_trailer`'s network round-trip for a given (title, release-year) pair
(`none` = no result or any caught exception); `details` models
`_get_video_details` (`none` = no item or any caught exception). -/
structure YT where
  configured : Bool
  search : String → Option Int → Option VideoInfo
  details : String → Option VideoInfo

/-- Embeds `YouTubeService.search_trailer` returns `None` immediately when the API
key is missing or the placeholder. -/
def searchTrailer (yt : YT) (title : String) (year : Option Int) : Option VideoInfo :=
  if yt.configured then yt.search title year else none

/-- Embeds `YouTubeService.get_trailer_url`. -/
def getTrailerUrl (video_id : String) : String :=
  "https://www.youtube.com/watch?v=" ++ video_id

/-- The video-id extraction of `search_titles`/`get_recommendations`:
three known URL shapes, tried in order; an empty extraction is falsy in
Python, hence treated as no id. -/
def extractVideoId (url : String) : Option String :=
  let u := url.data
  let vid : List Char :=
    if substrL "watch?v=".data u then beforeFirst "&".data (afterLast "watch?v=".data u)
    else if substrL "youtu.be/".data u then beforeFirst "?".data (afterLast "youtu.be/".data u)
    else if substrL "embed/".data u then beforeFirst "?".data (afterLast "embed/".data u)
    else []
  if vid = [] then none else some ⟨vid⟩

/-- The cached-URL branch shared by `search_titles` and
`get_recommendations`: given the stripped `trailer_url` cell, build a
trailer (`None` when the cell is empty, the `'nan'` placeholder, or not a
recognised URL shape).  With a configured key the details call is made;
otherwise a minimal `VideoInfo` is synthesised. -/
def cachedTrailer (yt : YT) (titleName existing : String) : Option VideoInfo :=
  if existing ≠ "" ∧ pyLower existing ≠ "nan" then
    match extractVideoId existing with
    | some video_id =>
      if yt.configured then yt.details video_id
      else some { video_id := video_id, title := titleName ++ " Trailer",
                  description := "", thumbnail_url := "", duration := "",
                  view_count := 0, published_at := "", channel_title := "" }
    | none => none
  else none

/-! ### The search service (`app/services.py`) -/

/-- One record of the in-memory table after `DataLoader.load_data` and
`NetflixSearchService._prepare_data`: all text cells are plain strings
(`fillna('')`), `release_year` keeps its optional numeric nature, and the
`trailer_url` enrichment column is guaranteed to exist.  The LLM enrichment
columns (`sentiment_llm`, `score_llm`, `critique_llm`) are omitted: no claim
involves them (their writes touch only those columns). -/
structure Row where
  show_id : String
  type : String
  title : String
  director : String := ""
  cast : String := ""
  country : String := ""
  date_added : String := ""
  release_year : Option Int := none
  rating : String := ""
  duration : String := ""
  listed_in : String := ""
  description : String := ""
  trailer_url : String := ""
deriving DecidableEq

/-- The `NetflixTitle` built from a row by `search_titles` /
`get_recommendations` (after `fillna('')` every text cell is non-null, so
`pd.notna` is true and the string is passed through). -/
def rowToTitle (r : Row) : NetflixTitle :=
  { show_id := r.show_id, type := r.type, title := r.title,
    director := some r.director, cast := some r.cast, country := some r.country,
    date_added := some r.date_added, release_year := r.release_year,
    rating := some r.rating, duration := some r.duration,
    listed_in := some r.listed_in, description := some r.description }

/-- The value of a searchable column of a row (defaults to `""` for names
that are not one of the six searchable columns; callers guard membership). -/
def rowField (r : Row) (column : String) : String :=
  if column = "title" then r.title
  else if column = "director" then r.director
  else if column = "cast" then r.cast
  else if column = "description" then r.description
  else if column = "country" then r.country
  else if column = "listed_in" then r.listed_in
  else ""

/-- The columns of the loaded DataFrame: the CSV schema, the enrichment
columns ensured by `DataLoader.load_data`, and the `<col>_lower` columns
added by `_prepare_data`. -/
def dfColumns : List String :=
  ["show_id", "type", "title", "director", "cast", "country", "date_added",
   "release_year", "rating", "duration", "listed_in", "description",
   "trailer_url", "sentiment_llm", "score_llm", "critique_llm"] ++
  COLUMNAS_BUSQUEDA.map (fun c => c ++ "_lower")

/-- Embeds `NetflixSearchService._search_all_columns`: OR of
`str.contains(query)` over the six `<col>_lower` columns; row order is
preserved.  Rows are paired with their positional index (the DataFrame
index) because the enrichment loop writes back via `df.at[index, ...]`. -/
def searchAllColumns (df : List Row) (query : String) : List (Nat × Row) :=
  df.enum.filter (fun p =>
    COLUMNAS_BUSQUEDA.any (fun col => pyContains query (pyLower (rowField p.2 col))))

/-- Embeds `NetflixSearchService._search_specific_column`: unknown columns yield an
empty frame, but a column that exists without a `<column>_lower` twin makes
`self.df[f'{column}_lower']` raise `KeyError`. -/
def searchSpecificColumn (df : List Row) (query column : String) :
    Except String (List (Nat × Row)) :=
  if column ∉ dfColumns then Except.ok []
  else if (column ++ "_lower") ∈ dfColumns then
    Except.ok (df.enum.filter (fun p => pyContains query (pyLower (rowField p.2 column))))
  else Except.error ("KeyError: " ++ column ++ "_lower")

/-- Overwrite the `trailer_url` cell of row `i` (`df.at[i, 'trailer_url'] = url`);
out-of-range indices leave the table unchanged. -/
def setTrailerUrl : List Row → Nat → String → List Row
  | [], _, _ => []
  | r :: rs, 0, url => { r with trailer_url := url } :: rs
  | r :: rs, n + 1, url => r :: setTrailerUrl rs n url

/-- The full service configuration: the YouTube service plus the optional
Groq client (shared by analysis and the smart-query rewrite), and — only
relevant when the Groq client is configured and `smart_query` is set — the
LLM-driven row filter of `_smart_refine_results`, abstracted as a predicate
(the real code keeps a subset of the result rows via a boolean mask, and on
any exception returns the rows unchanged, which the predicate also covers). -/
structure Cfg where
  yt : YT
  groqClient : GroqClient
  refiner : String → Nat × Row → Bool

/-- Embeds `NetflixSearchService._smart_refine_results`: a no-op without a Groq client, otherwise the
LLM-driven conjunctive filter (abstracted by `cfg.refiner`). -/
def smartRefine (cfg : Cfg) (original_query : String) (results : List (Nat × Row)) :
    List (Nat × Row) :=
  match cfg.groqClient with
  | none => results
  | some _ => results.filter (cfg.refiner original_query)

/-- The trailer block of one iteration of the `search_titles` enrichment
loop: prefer the cached `trailer_url` (read from the selection snapshot,
exactly as `row.get('trailer_url')` reads the row copied out by `iterrows`;
`title.title` is `row['title']`), otherwise search YouTube when requested,
and persist a found URL at DataFrame index `i` only when no cached URL
existed (`if trailer and not existing_trailer_url`). -/
def searchStepTrailer (cfg : Cfg) (req : SearchRequest) (i : Nat) (row : Row)
    (df : List Row) : Option VideoInfo × List Row :=
  let existing_trailer_url := pyStrip row.trailer_url
  match cachedTrailer cfg.yt row.title existing_trailer_url with
  | some v => (some v, df)
  | none =>
    if req.include_trailers then
      match searchTrailer cfg.yt row.title row.release_year with
      | some v =>
        if existing_trailer_url = "" then
          (some v, setTrailerUrl df i (getTrailerUrl v.video_id))
        else (some v, df)
      | none => (none, df)
    else (none, df)

/-- The per-row enrichment loop of `search_titles`, threading the mutable
DataFrame. -/
def searchLoop (cfg : Cfg) (req : SearchRequest) :
    List (Nat × Row) → List Row → List NetflixTitleWithMedia × List Row
  | [], df => ([], df)
  | (i, row) :: rest, df =>
    let title := rowToTitle row
    let step := searchStepTrailer cfg req i row df
    let analysis :=
      if req.include_analysis then some (analyzeContent cfg.groqClient title) else none
    let next := searchLoop cfg req rest step.2
    ({ title := title, trailer := step.1, analysis := analysis } :: next.1, next.2)

/-- Embeds `NetflixSearchService.search_titles`.  Returns the response together with
the final table state; `.error` models an uncaught exception (`KeyError` from
`_search_specific_column`).  The CSV flush at the end only persists the
in-memory table to disk (out of scope) and cannot change it. -/
def searchTitlesE (cfg : Cfg) (df : List Row) (req : SearchRequest) :
    Except String (SearchResponse × List Row) :=
  let query := pyLower req.query
  match
    (if req.search_type = "all" then Except.ok (searchAllColumns df query)
     else searchSpecificColumn df query req.search_type) with
  | Except.error e => Except.error e
  | Except.ok results =>
    let results := if req.smart_query then smartRefine cfg req.query results else results
    let results := results.take req.limit
    let out := searchLoop cfg req results df
    Except.ok ({ results := out.1, total_count := out.1.length,
                 query := req.query, search_type := req.search_type }, out.2)

/-- The trailer block of one iteration of the `get_recommendations`
enrichment loop: read the cached URL from the first table row whose `title`
equals the matched title (on the current table state,
`self.df.at[row_idx[0], 'trailer_url']`); otherwise search YouTube when
requested and — only when no cached URL existed (`not existing_trailer_url`:
no matching row, or a blank cell) — persist the discovered URL into
**every** row whose `title` matches
(`df.loc[df['title'] == title, 'trailer_url'] = url`). -/
def recStepTrailer (cfg : Cfg) (prefs : UserPreferences) (matching_title : NetflixTitle)
    (df : List Row) : Option VideoInfo × List Row :=
  let existing_trailer_url : Option String :=
    (df.find? (fun r => r.title == matching_title.title)).map
      (fun r => pyStrip r.trailer_url)
  match
    (match existing_trailer_url with
     | some e => cachedTrailer cfg.yt matching_title.title e
     | none => none) with
  | some v => (some v, df)
  | none =>
    if prefs.include_trailers then
      match searchTrailer cfg.yt matching_title.title matching_title.release_year with
      | some v =>
        if existing_trailer_url.getD "" = "" then
          (some v, df.map (fun r =>
            if r.title == matching_title.title then
              { r with trailer_url := getTrailerUrl v.video_id } else r))
        else (some v, df)
      | none => (none, df)
    else (none, df)

/-- The enrichment loop of `NetflixSearchService.get_recommendations`: for
each AI recommendation find the first available title with the same name
(`next((t for t in available_titles if t.title == rec.title), None)`);
recommendations without a match contribute nothing. -/
def recLoop (cfg : Cfg) (prefs : UserPreferences) (available_titles : List NetflixTitle) :
    List Recommendation → List Row → List NetflixTitleWithMedia × List Row
  | [], df => ([], df)
  | rec :: rest, df =>
    match available_titles.find? (fun t => t.title == rec.title) with
    | none => recLoop cfg prefs available_titles rest df
    | some matching_title =>
      let step := recStepTrailer cfg prefs matching_title df
      let analysis :=
        if prefs.include_analysis then
          some (analyzeContent cfg.groqClient matching_title) else none
      let next := recLoop cfg prefs available_titles rest step.2
      ({ title := matching_title, trailer := step.1, analysis := analysis } :: next.1, next.2)

/-- Embeds `NetflixSearchService.get_recommendations`: rank over the whole table,
enrich, and answer with the enriched list truncated to the caller's limit but
`total_count` taken before that truncation. -/
def getRecommendationsE (cfg : Cfg) (df : List Row) (req : RecommendationRequest) :
    Except String (RecommendationResponse × List Row) :=
  let available_titles := df.map rowToTitle
  match aiGetRecommendations cfg.groqClient req.preferences available_titles with
  | Except.error e => Except.error e
  | Except.ok ai_recommendations =>
    let out := recLoop cfg req.preferences available_titles ai_recommendations df
    Except.ok ({ recommendations := out.1.take req.limit,
                 total_count := out.1.length,
                 user_preferences := req.preferences }, out.2)

/-- Summary record returned by `fill_trailer_urls`. -/
structure FillSummary where
  updated : Nat
  skipped : Nat
  failed : Nat
  total_missing_before : Nat
  total_missing_after : Option Nat := none
  message : Option String := none
deriving DecidableEq

/-- The missing-cell test of `fill_trailer_urls`:
`str.strip().replace('nan', '').eq('')` — `Series.replace` replaces values
wholly equal to `'nan'`. -/
def trailerMissing (url : String) : Bool :=
  pyStrip url = "" || pyStrip url = "nan"

/-- The update loop of `fill_trailer_urls` over the missing indices: look the
row up in the current table (`KeyError` would be caught and counted as a
failure), skip rows with a blank title, search YouTube and persist the found
URL at that single index. -/
def fillLoop (yt : YT) : List Nat → List Row → Nat → Nat → Nat × Nat × List Row
  | [], df, updated, failed => (updated, failed, df)
  | idx :: rest, df, updated, failed =>
    match df[idx]? with
    | none => fillLoop yt rest df updated (failed + 1)
    | some row =>
      let title := pyStrip row.title
      if title = "" then fillLoop yt rest df updated failed
      else
        match searchTrailer yt title row.release_year with
        | some video =>
          fillLoop yt rest (setTrailerUrl df idx (getTrailerUrl video.video_id))
            (updated + 1) failed
        | none => fillLoop yt rest df updated (failed + 1)

/-- Embeds `NetflixSearchService.fill_trailer_urls`.  The `trailer_url` column always
exists in the model.  Unconfigured key: zero updates immediately (counting
cells equal to `''` — without stripping, as `str.len() == 0` does). -/
def fillTrailerUrls (yt : YT) (df : List Row) (max_to_update : Nat) :
    FillSummary × List Row :=
  if ¬ yt.configured then
    ({ updated := 0, skipped := 0, failed := 0,
       total_missing_before := (df.filter (fun r => r.trailer_url = "")).length,
       message := some "API key de YouTube no configurada" }, df)
  else
    let missing_indices := (df.enum.filter (fun p => trailerMissing p.2.trailer_url)).map Prod.fst
    let out := fillLoop yt (missing_indices.take max_to_update) df 0 0
    ({ updated := out.1,
       skipped := missing_indices.length - min missing_indices.length max_to_update,
       failed := out.2.1,
       total_missing_before := missing_indices.length,
       total_missing_after := some (out.2.2.filter (fun r => r.trailer_url = "")).length }, out.2.2)

/-! ### Concrete fixtures used by witnesses and counterexamples -/

/-- A YouTube search hit used as oracle output in concrete scenarios. -/
def vFound : VideoInfo :=
  { video_id := "def456", title := "T", description := "", thumbnail_url := "",
    duration := "", view_count := 0, published_at := "", channel_title := "" }

/-- A configured YouTube service whose search always finds `vFound` and whose
details call always fails. -/
def ytFound : YT := { configured := true, search := fun _ _ => some vFound, details := fun _ => none }

/-- A service configuration without a Groq client. -/
def cfgPlain : Cfg := { yt := ytFound, groqClient := none, refiner := fun _ _ => true }

/-- A row titled `X` with an unresolved trailer cell. -/
def rowX1 : Row := { show_id := "s1", type := "Movie", title := "X", release_year := some 2024 }

/-- A second row also titled `X`, with a cached trailer URL. -/
def rowX2 : Row := { show_id := "s2", type := "Movie", title := "X", release_year := some 2024,
                     trailer_url := "https://www.youtube.com/watch?v=abc" }

/-- Preferences that make every 2024 title pass the 0.3 threshold
(year bonus 0.2 + preferred-years bonus 0.2 on a neutral 0.2 base). -/
def prefsYears : UserPreferences :=
  { preferred_years := [2000, 2030], include_trailers := true, include_analysis := false }

/-- A row-maker for recent titles with pairwise-distinct names. -/
def mkRow (sid t : String) : Row :=
  { show_id := sid, type := "Movie", title := t, release_year := some 2024 }

/-- Eleven distinct recent titles: all eleven survive the ranker threshold. -/
def dfEleven : List Row :=
  [mkRow "1" "Aa", mkRow "2" "Bb", mkRow "3" "Cc", mkRow "4" "Dd", mkRow "5" "Ee",
   mkRow "6" "Ff", mkRow "7" "Gg", mkRow "8" "Hh", mkRow "9" "Ii", mkRow "10" "Jj",
   mkRow "11" "Kk"]

/-- Preferences used in the total-count scenario (no trailer work). -/
def prefsCount : UserPreferences :=
  { preferred_years := [2020, 2030], include_trailers := false, include_analysis := false }

/-- A record whose heuristic recommendation score is 0.9 (sentiment 1.0 from
"amazing", three popular predicted genres, recent year) with "Dramas" among
the predicted genres. -/
def titleNine : NetflixTitle :=
  { show_id := "s", type := "Movie", title := "Avatar",
    description := some "amazing drama comedy action", release_year := some 2024 }

/-- Preferences preferring exactly `["Dramas"]` (year range matching nothing,
so only the genre bonus fires). -/
def prefsDramas : UserPreferences :=
  { preferred_genres := ["Dramas"], preferred_years := [1000, 1500] }

/-- A record whose genre list matches both the Drama and the Comedy key. -/
def titleDramaComedy : NetflixTitle :=
  { show_id := "s", type := "Movie", title := "D", listed_in := some "Drama, Comedy" }

/-- The specification-side matching predicate for scope `"all"`: the
lower-cased query is a substring of at least one of the six lower-cased
searchable fields.  (Second definition for the refinement claim C3, written
from the spec's words; the source-side search uses `pyContains`.) -/
def matchRowAll (query : String) (r : Row) : Bool :=
  COLUMNAS_BUSQUEDA.any (fun col => substrB query (pyLower (rowField r col)))

/-- The recommendation request of the total-count scenario. -/
def reqCount : RecommendationRequest := { preferences := prefsCount, limit := 3 }

/-- The empty recommendation response for `prefsCount`. -/
def respEmpty : RecommendationResponse :=
  { recommendations := [], total_count := 0, user_preferences := prefsCount }

/-- The degenerate record: empty title, no description, no genre list. -/
def emptyTitle : NetflixTitle := { show_id := "", type := "", title := "" }

/-! ### Helper lemmas -/

theorem pyMin_eq (a b : ℚ) : pyMin a b = min a b := by
  rcases lt_or_le b a with h | h
  · simp [pyMin, h, min_eq_right h.le]
  · simp [pyMin, not_lt.mpr h, min_eq_left h]

theorem pyMax_eq (a b : ℚ) : pyMax a b = max a b := by
  rcases lt_or_le a b with h | h
  · simp [pyMax, h, max_eq_right h.le]
  · simp [pyMax, not_lt.mpr h, max_eq_left h]

/-- The function `substrL` decides genuine substring containment. -/
theorem substrL_iff_infix {needle hay : List Char} :
    substrL needle hay = true ↔ needle <:+: hay := by
  induction hay with
  | nil =>
    simp only [substrL, List.isPrefixOf_iff_prefix, List.infix_nil]
    constructor
    · intro h; exact List.prefix_nil.mp h
    · intro h; subst h; exact List.nil_prefix
  | cons c cs ih =>
    simp only [substrL, Bool.or_eq_true, List.isPrefixOf_iff_prefix, ih,
      List.infix_cons_iff]

/-- The function `substrB` decides genuine substring containment on the character lists. -/
theorem substrB_iff_infix {needle hay : String} :
    substrB needle hay = true ↔ needle.data <:+: hay.data :=
  substrL_iff_infix

/-! ### C7: heuristic fallback -/

/-- C7: for every record, when the language-model client is unset, or
configured but failing on every call, `analyze_content` returns exactly the
pure heuristic computation for that record. -/
theorem claim7_heuristic_fallback (t : NetflixTitle) :
    analyzeContent none t = analyzeContentHeuristic t ∧
    ∀ f : NetflixTitle → Option ContentAnalysis, (∀ s, f s = none) →
      analyzeContent (some f) t = analyzeContentHeuristic t := by
  refine ⟨rfl, fun f hf => ?_⟩
  simp [analyzeContent, hf t]

/-- Witness for C7 at a concrete record and the everywhere-failing client. -/
theorem claim7_witness :
    analyzeContent none (rowToTitle rowX1) = analyzeContentHeuristic (rowToTitle rowX1) ∧
    analyzeContent (some (fun _ => none)) (rowToTitle rowX1) =
      analyzeContentHeuristic (rowToTitle rowX1) :=
  ⟨(claim7_heuristic_fallback (rowToTitle rowX1)).1,
   (claim7_heuristic_fallback (rowToTitle rowX1)).2 (fun _ => none) (fun _ => rfl)⟩

/-! ### C9: content warnings -/

/-- C9: for every input text the heuristic content-warning list is a
duplicate-free sublist of the four fixed categories in declaration order,
containing a category iff one of its keywords occurs in the lower-cased
text. -/
theorem claim9_content_warnings (text : String) :
    List.Sublist (detectContentWarnings (pyLower text))
      ["violence", "language", "sexual_content", "drugs"] ∧
    (detectContentWarnings (pyLower text)).Nodup ∧
    ∀ w, w ∈ detectContentWarnings (pyLower text) ↔
      ∃ kws, (w, kws) ∈ contentWarningKeywords ∧
        kws.any (fun kw => substrB kw (pyLower text)) = true := by
  have hnames : contentWarningKeywords.map Prod.fst =
      ["violence", "language", "sexual_content", "drugs"] := rfl
  have hsub : List.Sublist (detectContentWarnings (pyLower text))
      ["violence", "language", "sexual_content", "drugs"] := by
    rw [detectContentWarnings, ← hnames]
    exact (List.filter_sublist _).map Prod.fst
  refine ⟨hsub, hsub.nodup (by decide), fun w => ?_⟩
  constructor
  · intro hw
    rcases List.mem_map.mp hw with ⟨p, hp, hfst⟩
    obtain ⟨a, b⟩ := p
    rcases List.mem_filter.mp hp with ⟨hmem, hpred⟩
    cases hfst
    exact ⟨b, hmem, hpred⟩
  · rintro ⟨kws, hmem, hany⟩
    exact List.mem_map.mpr ⟨(w, kws), List.mem_filter.mpr ⟨hmem, hany⟩, rfl⟩

/-- Witness for C9 at a concrete text mentioning blood and drugs. -/
theorem claim9_witness :
    List.Sublist (detectContentWarnings (pyLower "Blood and drugs"))
      ["violence", "language", "sexual_content", "drugs"] ∧
    (detectContentWarnings (pyLower "Blood and drugs")).Nodup ∧
    ∀ w, w ∈ detectContentWarnings (pyLower "Blood and drugs") ↔
      ∃ kws, (w, kws) ∈ contentWarningKeywords ∧
        kws.any (fun kw => substrB kw (pyLower "Blood and drugs")) = true :=
  claim9_content_warnings "Blood and drugs"

/-! ### C10: similar titles -/

/-- C10: the similar-titles list never exceeds 3 entries and is the first
three elements of the Drama ++ Comedy ++ Action concatenation, so an earlier
matched category's triple shadows later ones (a Drama+Comedy record yields
only the Drama triple). -/
theorem claim10_similar_titles (t : NetflixTitle) :
    (findSimilarTitles t).length ≤ 3 ∧
    (∀ l, t.listed_in = some l →
      findSimilarTitles t =
        ((if substrB "Drama" l then ["Breaking Bad", "The Crown", "Ozark"] else []) ++
         (if substrB "Comedy" l then ["The Office", "Friends", "Parks and Recreation"] else []) ++
         (if substrB "Action" l then ["The Witcher", "Stranger Things", "Money Heist"] else [])).take 3) ∧
    (∀ l, t.listed_in = some l → substrB "Drama" l = true → substrB "Comedy" l = true →
      findSimilarTitles t = ["Breaking Bad", "The Crown", "Ozark"]) := by
  refine ⟨?_, fun l hl => ?_, fun l hl hd hc => ?_⟩
  · rw [findSimilarTitles]
    cases t.listed_in <;> simp [List.length_take]
  · rw [findSimilarTitles, hl]
  · simp [findSimilarTitles, hl, hd, hc]

/-- Witness for C10 at a Drama+Comedy record. -/
theorem claim10_witness :
    (findSimilarTitles titleDramaComedy).length ≤ 3 ∧
    findSimilarTitles titleDramaComedy = ["Breaking Bad", "The Crown", "Ozark"] := by
  have h := claim10_similar_titles titleDramaComedy
  exact ⟨h.1, h.2.2 "Drama, Comedy" rfl (by decide) (by decide)⟩

/-! ### C6: sentiment and recommendation score -/

theorem analyzeSentiment_nonneg (text : String) : 0 ≤ analyzeSentiment text := by
  rw [analyzeSentiment]
  split
  · norm_num
  · rw [pyMax_eq]
    exact le_max_left 0 _

theorem analyzeSentiment_le_one (text : String) : analyzeSentiment text ≤ 1 := by
  rw [analyzeSentiment]
  split
  · norm_num
  · rw [pyMax_eq, pyMin_eq]
    exact max_le (by norm_num) (min_le_left 1 _)

theorem yearBonus_nonneg (y : Option Int) : 0 ≤ yearBonus y := by
  rcases y with - | yr
  · norm_num [yearBonus]
  · simp only [yearBonus]
    repeat' split
    all_goals norm_num

/-- C6: for every input record (including empty text) the heuristic sentiment
and recommendation scores lie in [0,1]; with zero lexicon hits the sentiment
is exactly 0.5, otherwise it is the rescaled clamped hit balance; and the
recommendation score is 0.4·sentiment plus 0.1 per popular predicted genre
plus the recency bonus, clamped to [0,1]. -/
theorem claim6_analysis_bounds (t : NetflixTitle) :
    0 ≤ (analyzeContentHeuristic t).sentiment_score ∧
    (analyzeContentHeuristic t).sentiment_score ≤ 1 ∧
    0 ≤ (analyzeContentHeuristic t).recommendation_score ∧
    (analyzeContentHeuristic t).recommendation_score ≤ 1 ∧
    (countHits positiveWords (combinedText t) + countHits negativeWords (combinedText t) +
        countHits neutralWords (combinedText t) = 0 →
      (analyzeContentHeuristic t).sentiment_score = 1/2) ∧
    (countHits positiveWords (combinedText t) + countHits negativeWords (combinedText t) +
        countHits neutralWords (combinedText t) ≠ 0 →
      (analyzeContentHeuristic t).sentiment_score =
        max 0 (min 1 (((((countHits positiveWords (combinedText t) : ℚ) -
            (countHits negativeWords (combinedText t) : ℚ)) /
            ((countHits positiveWords (combinedText t) + countHits negativeWords (combinedText t) +
              countHits neutralWords (combinedText t) : Nat) : ℚ)) + 1) / 2))) ∧
    (analyzeContentHeuristic t).recommendation_score =
      min 1 ((2/5) * (analyzeContentHeuristic t).sentiment_score +
        (((analyzeContentHeuristic t).genre_prediction.filter
            (fun g => GENEROS_POPULARES.contains g)).length : ℚ) * (1/10) +
        yearBonus t.release_year) := by
  have hs : (analyzeContentHeuristic t).sentiment_score = analyzeSentiment (combinedText t) := rfl
  have hr : (analyzeContentHeuristic t).recommendation_score =
      calculateRecommendationScore (analyzeSentiment (combinedText t))
        (predictGenres (combinedText t)) t := rfl
  have hg : (analyzeContentHeuristic t).genre_prediction = predictGenres (combinedText t) := rfl
  refine ⟨hs ▸ analyzeSentiment_nonneg _, hs ▸ analyzeSentiment_le_one _, ?_, ?_, ?_, ?_, ?_⟩
  · rw [hr, calculateRecommendationScore, pyMin_eq]
    refine le_min (by norm_num) ?_
    have h1 : 0 ≤ analyzeSentiment (combinedText t) * (2/5) :=
      mul_nonneg (analyzeSentiment_nonneg _) (by norm_num)
    have h2 : (0:ℚ) ≤ (((predictGenres (combinedText t)).filter
        (fun g => GENEROS_POPULARES.contains g)).length : ℚ) * (1/10) :=
      mul_nonneg (by positivity) (by norm_num)
    have h3 := yearBonus_nonneg t.release_year
    linarith
  · rw [hr, calculateRecommendationScore, pyMin_eq]
    exact min_le_left 1 _
  · intro h0
    rw [hs, analyzeSentiment]
    simp only [h0, if_pos]
  · intro hne
    rw [hs, analyzeSentiment]
    simp only [hne, if_neg, if_false]
    rw [pyMax_eq, pyMin_eq]
  · rw [hr, hs, hg, calculateRecommendationScore, pyMin_eq, mul_comm]

/-- Witness for C6 at the degenerate empty record. -/
theorem claim6_witness :
    0 ≤ (analyzeContentHeuristic emptyTitle).sentiment_score ∧
    (analyzeContentHeuristic emptyTitle).sentiment_score ≤ 1 ∧
    0 ≤ (analyzeContentHeuristic emptyTitle).recommendation_score ∧
    (analyzeContentHeuristic emptyTitle).recommendation_score ≤ 1 ∧
    (countHits positiveWords (combinedText emptyTitle) +
        countHits negativeWords (combinedText emptyTitle) +
        countHits neutralWords (combinedText emptyTitle) = 0 →
      (analyzeContentHeuristic emptyTitle).sentiment_score = 1/2) ∧
    (countHits positiveWords (combinedText emptyTitle) +
        countHits negativeWords (combinedText emptyTitle) +
        countHits neutralWords (combinedText emptyTitle) ≠ 0 →
      (analyzeContentHeuristic emptyTitle).sentiment_score =
        max 0 (min 1 (((((countHits positiveWords (combinedText emptyTitle) : ℚ) -
            (countHits negativeWords (combinedText emptyTitle) : ℚ)) /
            ((countHits positiveWords (combinedText emptyTitle) +
              countHits negativeWords (combinedText emptyTitle) +
              countHits neutralWords (combinedText emptyTitle) : Nat) : ℚ)) + 1) / 2))) ∧
    (analyzeContentHeuristic emptyTitle).recommendation_score =
      min 1 ((2/5) * (analyzeContentHeuristic emptyTitle).sentiment_score +
        (((analyzeContentHeuristic emptyTitle).genre_prediction.filter
            (fun g => GENEROS_POPULARES.contains g)).length : ℚ) * (1/10) +
        yearBonus emptyTitle.release_year) :=
  claim6_analysis_bounds emptyTitle

/-! ### C5: genre boost vs clamp -/

theorem personalizedYearStep_ge {score s2 : ℚ} {y : Option Int} {ys : List Int}
    (h : personalizedYearStep score y ys = Except.ok s2) : score ≤ s2 := by
  rcases y with - | yr
  · simp only [personalizedYearStep] at h
    cases h
    exact le_refl _
  · rcases ys with - | ⟨y0, - | ⟨y1, rest⟩⟩ <;> simp only [personalizedYearStep] at h
    · split at h
      · cases h
      · cases h; exact le_refl _
    · split at h
      · split at h
        · cases h
        · cases h; exact le_refl _
      · cases h; exact le_refl _
    · split at h
      · split at h
        · cases h; linarith
        · cases h; exact le_refl _
      · cases h; exact le_refl _

/-- C5 fails as stated (the final `min(1.0, ...)` clamp can eat most of the
genre bonus); the amended claim: for a record whose predicted genres include
"Dramas" and preferences preferring exactly `["Dramas"]`, any normally
returned ranked score is at least `min 1 (heuristic + 0.3)` — i.e. the full
0.3 boost applies except insofar as the clamp at 1.0 cuts it off. -/
theorem claim5_genre_boost_amended (t : NetflixTitle) (prefs : UserPreferences) (s : ℚ)
    (hg : prefs.preferred_genres = ["Dramas"])
    (hd : "Dramas" ∈ (analyzeContentHeuristic t).genre_prediction)
    (hok : calculatePersonalizedScore t (analyzeContentHeuristic t) prefs = Except.ok s) :
    min 1 ((analyzeContentHeuristic t).recommendation_score + 3/10) ≤ s := by
  have hany : (analyzeContentHeuristic t).genre_prediction.any
      (fun g => prefs.preferred_genres.contains g) = true :=
    List.any_eq_true.mpr ⟨"Dramas", hd, by rw [hg]; decide⟩
  rw [calculatePersonalizedScore] at hok
  simp only [hany, if_true] at hok
  set r := (analyzeContentHeuristic t).recommendation_score with hrdef
  cases hys : personalizedYearStep (r + 3/10) t.release_year prefs.preferred_years with
  | error e => rw [hys] at hok; cases hok
  | ok s2 =>
    rw [hys] at hok
    have h2 : r + 3/10 ≤ s2 := personalizedYearStep_ge hys
    have hfin : s = pyMin 1 (if optTruthy t.rating ∧
        prefs.preferred_rating.contains (t.rating.getD "") then s2 + 1/10 else s2) := by
      cases hok; rfl
    rw [hfin, pyMin_eq]
    refine min_le_min (le_refl 1) ?_
    split <;> linarith

/-- Counterexample for C5: a record with heuristic score 0.9 and "Dramas"
predicted; the ranked score is 1.0, only 0.1 above the heuristic score. -/
theorem claim5_counterexample :
    prefsDramas.preferred_genres = ["Dramas"] ∧
    "Dramas" ∈ (analyzeContentHeuristic titleNine).genre_prediction ∧
    (analyzeContentHeuristic titleNine).recommendation_score = 9/10 ∧
    (calculatePersonalizedScore titleNine (analyzeContentHeuristic titleNine)
        prefsDramas).toOption = some 1 ∧
    ¬ ((analyzeContentHeuristic titleNine).recommendation_score + 3/10 ≤ (1:ℚ)) := by
  refine ⟨rfl, by with_unfolding_all decide, by with_unfolding_all decide,
    by with_unfolding_all decide, ?_⟩
  have h : (analyzeContentHeuristic titleNine).recommendation_score = 9/10 := by
    with_unfolding_all decide
  rw [h]
  norm_num

/-- Witness for the amended C5 at the same concrete record. -/
theorem claim5_witness :
    min 1 ((analyzeContentHeuristic titleNine).recommendation_score + 3/10) ≤ (1:ℚ) :=
  claim5_genre_boost_amended titleNine prefsDramas 1 rfl (by with_unfolding_all decide)
    (by with_unfolding_all rfl)

/-! ### C2: unknown search scope -/

/-- Counterexample for C2: the scope `"type"` is neither `"all"` nor one of
the six searchable fields, yet `search_titles` raises (`KeyError` on the
missing `type_lower` column) instead of returning an empty result. -/
theorem claim2_counterexample :
    "type" ≠ "all" ∧ "type" ∉ COLUMNAS_BUSQUEDA ∧
    (searchTitlesE cfgPlain [rowX1]
      { query := "movie", search_type := "type" }).toOption = none := by
  refine ⟨by decide, by decide, by with_unfolding_all decide⟩

/-- C2 amended: a scope that is not `"all"` and not a column of the loaded
table (searchable fields, raw CSV columns, enrichment columns, or derived
`_lower` columns) yields an empty response and no exception.  (Scopes naming
a real but non-searchable column, such as `"type"`, raise `KeyError`.) -/
theorem claim2_unknown_scope_amended (cfg : Cfg) (df : List Row) (req : SearchRequest)
    (h1 : req.search_type ≠ "all") (h2 : req.search_type ∉ dfColumns) :
    searchTitlesE cfg df req =
      Except.ok ({ results := [], total_count := 0, query := req.query,
                   search_type := req.search_type }, df) := by
  rw [searchTitlesE]
  simp only [if_neg h1, searchSpecificColumn, if_pos h2]
  cases hq : req.smart_query <;> cases hc : cfg.groqClient <;>
    simp [smartRefine, hc, searchLoop]

/-- Witness for the amended C2 at a fully unknown scope. -/
theorem claim2_witness :
    searchTitlesE cfgPlain [rowX1] { query := "movie", search_type := "banana" } =
      Except.ok ({ results := [], total_count := 0, query := "movie",
                   search_type := "banana" }, [rowX1]) :=
  claim2_unknown_scope_amended cfgPlain [rowX1]
    { query := "movie", search_type := "banana" } (by decide) (by decide)

/-! ### C3: scope-"all" search semantics -/

theorem parseTok_of_not_meta {c : Char} (h : isRegexMeta c = false) :
    parseTok c = some (RTok.lit c) := by
  have hdot : ¬ (c = '.') := by
    intro he
    rw [he] at h
    exact absurd h (by decide)
  rw [parseTok, if_neg hdot, if_neg (by simp [h])]

theorem parsePattern_of_litFree {l : List Char} (h : ∀ c ∈ l, isRegexMeta c = false) :
    l.mapM parseTok = some (l.map RTok.lit) := by
  induction l with
  | nil => rfl
  | cons c cs ih =>
    rw [List.mapM_cons, parseTok_of_not_meta (h c (List.mem_cons_self c cs)),
      ih (fun x hx => h x (List.mem_cons_of_mem c hx))]
    rfl

theorem matchToks_lit : ∀ (n cs : List Char), matchToks (n.map RTok.lit) cs = n.isPrefixOf cs
  | [], [] => rfl
  | [], _ :: _ => rfl
  | _ :: _, [] => rfl
  | a :: as, c :: cs => by
    simp only [List.map_cons, matchToks, tokMatch, List.isPrefixOf, matchToks_lit as cs]

theorem regexSearch_lit : ∀ (n s : List Char), regexSearch (n.map RTok.lit) s = substrL n s
  | n, [] => by simp only [regexSearch, substrL, matchToks_lit]
  | n, c :: cs => by
    simp only [regexSearch, substrL, matchToks_lit, regexSearch_lit n cs]

theorem pyContains_of_litFree {p : String} (h : ∀ c ∈ p.data, isRegexMeta c = false)
    (s : String) : pyContains p s = substrB p s := by
  rw [pyContains, parsePattern, parsePattern_of_litFree h]
  exact regexSearch_lit p.data s.data

theorem enumFrom_filter_map_snd {α : Type} (p : α → Bool) :
    ∀ (l : List α) (n : Nat),
      ((l.enumFrom n).filter (fun x => p x.2)).map Prod.snd = l.filter p
  | [], _ => rfl
  | a :: l, n => by
    rw [List.enumFrom_cons, List.filter_cons, List.filter_cons]
    by_cases hp : p a
    · simp [hp, enumFrom_filter_map_snd p l (n + 1)]
    · simp [hp, enumFrom_filter_map_snd p l (n + 1)]

theorem searchLoop_fst_titles (cfg : Cfg) (req : SearchRequest) :
    ∀ (sel : List (Nat × Row)) (df : List Row),
      ((searchLoop cfg req sel df).1).map NetflixTitleWithMedia.title =
        sel.map (fun x => rowToTitle x.2)
  | [], _ => rfl
  | (i, row) :: rest, df => by
    simp only [searchLoop, List.map_cons]
    exact congrArg _ (searchLoop_fst_titles cfg req rest _)

/-- C3 amended: without the optional smart-query rewrite and for queries free
of regex metacharacters, the scope-"all" search returns exactly the records
one of whose six lower-cased searchable fields contains the lower-cased query
as a substring, in table order, truncated to the caller's limit only after
matching.  (As stated the claim is false: `Series.str.contains` treats the
query as a regular expression, so e.g. the query `"."` matches records that
contain no dot.) -/
theorem claim3_search_all_amended (cfg : Cfg) (df : List Row) (req : SearchRequest)
    (hscope : req.search_type = "all") (hsmart : req.smart_query = false)
    (hq : ∀ c ∈ (pyLower req.query).data, isRegexMeta c = false) :
    ∃ resp df',
      searchTitlesE cfg df req = Except.ok (resp, df') ∧
      resp.results.map NetflixTitleWithMedia.title =
        ((df.filter (matchRowAll (pyLower req.query))).take req.limit).map rowToTitle ∧
      (∀ r : Row, matchRowAll (pyLower req.query) r = true ↔
        ∃ col ∈ COLUMNAS_BUSQUEDA,
          (pyLower req.query).data <:+: (pyLower (rowField r col)).data) := by
  rw [searchTitlesE]
  simp only [hscope, if_pos, hsmart, Bool.false_eq_true, if_neg, if_false]
  refine ⟨_, _, rfl, ?_, ?_⟩
  · rw [searchLoop_fst_titles]
    have hcongr : searchAllColumns df (pyLower req.query) =
        df.enum.filter (fun p => matchRowAll (pyLower req.query) p.2) := by
      rw [searchAllColumns]
      exact List.filter_congr (fun x _ => by
        rw [matchRowAll]
        exact congrArg _ (funext (fun col => pyContains_of_litFree hq _)))
    rw [hcongr]
    have hmt : ∀ (sel : List (Nat × Row)),
        sel.map (fun x => rowToTitle x.2) = (sel.map Prod.snd).map rowToTitle := by
      intro sel
      rw [List.map_map]
      rfl
    rw [hmt, List.map_take, List.enum, enumFrom_filter_map_snd]
  · intro r
    rw [matchRowAll, List.any_eq_true]
    constructor
    · rintro ⟨col, hcol, hsub⟩
      exact ⟨col, hcol, substrB_iff_infix.mp hsub⟩
    · rintro ⟨col, hcol, hinf⟩
      exact ⟨col, hcol, substrB_iff_infix.mpr hinf⟩

set_option maxRecDepth 4000 in
/-- Counterexample for C3: the query `"."` is a substring of none of the six
searchable fields of `rowX1`, yet the scope-"all" search returns the record
(regex semantics: `.` matches any character). -/
theorem claim3_counterexample :
    (COLUMNAS_BUSQUEDA.all (fun col =>
      !(substrB (pyLower ".") (pyLower (rowField rowX1 col))))) = true ∧
    ((searchTitlesE cfgPlain [rowX1] { query := "." }).toOption.map
      (fun p => p.1.results.map (fun m => m.title))) = some [rowToTitle rowX1] := by
  constructor
  · with_unfolding_all decide
  · with_unfolding_all decide

/-- Witness for the amended C3 at a concrete metacharacter-free query. -/
theorem claim3_witness :
    ∃ resp df',
      searchTitlesE cfgPlain [rowX1] { query := "Movie" } = Except.ok (resp, df') ∧
      resp.results.map NetflixTitleWithMedia.title =
        (([rowX1].filter (matchRowAll (pyLower "Movie"))).take 10).map rowToTitle ∧
      (∀ r : Row, matchRowAll (pyLower "Movie") r = true ↔
        ∃ col ∈ COLUMNAS_BUSQUEDA,
          (pyLower "Movie").data <:+: (pyLower (rowField r col)).data) :=
  claim3_search_all_amended cfgPlain [rowX1] { query := "Movie" } rfl rfl (by decide)

/-! ### C4: ranker contract -/

theorem recScoreLe_trans (a b c : Recommendation) :
    (decide (b.score ≤ a.score)) = true → (decide (c.score ≤ b.score)) = true →
    (decide (c.score ≤ a.score)) = true := by
  simp only [decide_eq_true_eq]
  exact fun h1 h2 => le_trans h2 h1

theorem recScoreLe_total (a b : Recommendation) :
    ((decide (b.score ≤ a.score)) || (decide (a.score ≤ b.score))) = true := by
  rcases le_total b.score a.score with h | h <;> simp [h]

theorem buildRecs_score (client : GroqClient) (prefs : UserPreferences) :
    ∀ (ts : List NetflixTitle) (recs : List Recommendation),
      buildRecs client prefs ts = Except.ok recs →
      ∀ rec ∈ recs, (3:ℚ)/10 < rec.score
  | [], recs, h => by
    cases h
    intro rec hrec
    cases hrec
  | t :: ts, recs, h => by
    simp only [buildRecs] at h
    cases hc : calculatePersonalizedScore t (analyzeContent client t) prefs with
    | error e => rw [hc] at h; cases h
    | ok score =>
      rw [hc] at h
      cases hb : buildRecs client prefs ts with
      | error e => rw [hb] at h; cases h
      | ok tail =>
        rw [hb] at h
        dsimp only at h
        by_cases hgt : score > (3:ℚ)/10
        · rw [if_pos hgt] at h
          cases h
          intro rec hrec
          rcases List.mem_cons.mp hrec with he | hm
          · rw [he]
            exact hgt
          · exact buildRecs_score client prefs ts tail hb rec hm
        · rw [if_neg hgt] at h
          cases h
          exact fun rec hm => buildRecs_score client prefs ts recs hb rec hm

theorem buildRecs_title (client : GroqClient) (prefs : UserPreferences) :
    ∀ (ts : List NetflixTitle) (recs : List Recommendation),
      buildRecs client prefs ts = Except.ok recs →
      ∀ rec ∈ recs, ∃ t ∈ ts, rec.title = t.title
  | [], recs, h => by
    cases h
    intro rec hrec
    cases hrec
  | t :: ts, recs, h => by
    simp only [buildRecs] at h
    cases hc : calculatePersonalizedScore t (analyzeContent client t) prefs with
    | error e => rw [hc] at h; cases h
    | ok score =>
      rw [hc] at h
      cases hb : buildRecs client prefs ts with
      | error e => rw [hb] at h; cases h
      | ok tail =>
        rw [hb] at h
        dsimp only at h
        by_cases hgt : score > (3:ℚ)/10
        · rw [if_pos hgt] at h
          cases h
          intro rec hrec
          rcases List.mem_cons.mp hrec with he | hm
          · rw [he]
            exact ⟨t, List.mem_cons_self t ts, rfl⟩
          · rcases buildRecs_title client prefs ts tail hb rec hm with ⟨t', ht', he'⟩
            exact ⟨t', List.mem_cons_of_mem t ht', he'⟩
        · rw [if_neg hgt] at h
          cases h
          intro rec hm
          rcases buildRecs_title client prefs ts recs hb rec hm with ⟨t', ht', he'⟩
          exact ⟨t', List.mem_cons_of_mem t ht', he'⟩

theorem filter_take_eq_take {α : Type} (p : α → Bool) :
    ∀ (l : List α) (n : Nat), ∃ k, (l.take n).filter p = (l.filter p).take k
  | [], n => ⟨0, by simp⟩
  | a :: l, 0 => ⟨0, by simp⟩
  | a :: l, n + 1 => by
    rcases filter_take_eq_take p l n with ⟨k, hk⟩
    by_cases hp : p a
    · exact ⟨k + 1, by simp [hp, hk]⟩
    · exact ⟨k, by simp [hp, hk]⟩

/-- Stability of the ranker's sort: elements with any fixed score keep their
relative (input) order, expressed as filter-invariance of the sort. -/
theorem mergeSort_filter_score (recs : List Recommendation) (s : ℚ) :
    (recs.mergeSort (fun a b => decide (b.score ≤ a.score))).filter
        (fun rec => decide (rec.score = s)) =
      recs.filter (fun rec => decide (rec.score = s)) := by
  have hpair : (recs.filter (fun rec => decide (rec.score = s))).Pairwise
      (fun a b => (decide (b.score ≤ a.score)) = true) := by
    refine List.pairwise_of_forall_mem_list ?_
    intro a ha b hb
    have ha' := of_decide_eq_true (List.mem_filter.mp ha).2
    have hb' := of_decide_eq_true (List.mem_filter.mp hb).2
    simp [ha', hb']
  have hsub : List.Sublist
      (recs.filter (fun rec => decide (rec.score = s)))
      (recs.mergeSort (fun a b => decide (b.score ≤ a.score))) :=
    List.sublist_mergeSort recScoreLe_trans recScoreLe_total hpair
      (List.filter_sublist recs)
  have hself : (recs.filter (fun rec => decide (rec.score = s))).filter
      (fun rec => decide (rec.score = s)) =
      recs.filter (fun rec => decide (rec.score = s)) :=
    List.filter_eq_self.mpr (fun a ha => (List.mem_filter.mp ha).2)
  have hsub2 := hsub.filter (fun rec => decide (rec.score = s))
  rw [hself] at hsub2
  have hperm : List.Perm
      ((recs.mergeSort (fun a b => decide (b.score ≤ a.score))).filter
        (fun rec => decide (rec.score = s)))
      (recs.filter (fun rec => decide (rec.score = s))) :=
    (List.mergeSort_perm recs _).filter _
  exact (hsub2.eq_of_length hperm.length_eq.symm).symm

/-- C4: whenever the ranker returns normally it returns at most 10
recommendations, each scoring strictly above 0.3, sorted non-increasingly by
score with tied scores kept in candidate (table) order. -/
theorem claim4_ranker_contract (client : GroqClient) (prefs : UserPreferences)
    (titles : List NetflixTitle) (res : List Recommendation)
    (h : aiGetRecommendations client prefs titles = Except.ok res) :
    res.length ≤ 10 ∧
    (∀ rec ∈ res, (3:ℚ)/10 < rec.score) ∧
    res.Pairwise (fun a b => b.score ≤ a.score) ∧
    (∀ recs, buildRecs client prefs titles = Except.ok recs →
      ∀ s : ℚ, ∃ k, res.filter (fun rec => decide (rec.score = s)) =
        (recs.filter (fun rec => decide (rec.score = s))).take k) := by
  rw [aiGetRecommendations] at h
  cases hb : buildRecs client prefs titles with
  | error e => rw [hb] at h; cases h
  | ok recs0 =>
    rw [hb] at h
    cases h
    refine ⟨?_, ?_, ?_, ?_⟩
    · rw [List.length_take]
      exact min_le_left _ _
    · intro rec hm
      have hm' := List.mem_mergeSort.mp (List.mem_of_mem_take hm)
      exact buildRecs_score client prefs titles recs0 hb rec hm'
    · have hs := List.sorted_mergeSort recScoreLe_trans recScoreLe_total recs0
      have hs' := hs.sublist (List.take_sublist 10 _)
      exact hs'.imp (fun hab => of_decide_eq_true hab)
    · intro recs hrecs s
      have hrr : recs0 = recs := Except.ok.inj hrecs
      subst hrr
      rcases filter_take_eq_take (fun rec => decide (rec.score = s))
        (recs0.mergeSort (fun a b => decide (b.score ≤ a.score))) 10 with ⟨k, hk⟩
      exact ⟨k, by rw [hk, mergeSort_filter_score]⟩

/-- Witness for C4 at the empty candidate list. -/
theorem claim4_witness :
    ([] : List Recommendation).length ≤ 10 ∧
    (∀ rec ∈ ([] : List Recommendation), (3:ℚ)/10 < rec.score) ∧
    ([] : List Recommendation).Pairwise (fun a b => b.score ≤ a.score) ∧
    (∀ recs, buildRecs none prefsYears [] = Except.ok recs →
      ∀ s : ℚ, ∃ k, ([] : List Recommendation).filter (fun rec => decide (rec.score = s)) =
        (recs.filter (fun rec => decide (rec.score = s))).take k) :=
  claim4_ranker_contract none prefsYears [] [] (by with_unfolding_all rfl)

/-! ### C8: total counts -/

theorem searchLoop_len (cfg : Cfg) (req : SearchRequest) :
    ∀ (sel : List (Nat × Row)) (df : List Row),
      ((searchLoop cfg req sel df).1).length = sel.length
  | [], _ => rfl
  | (i, row) :: rest, df => by
    simp only [searchLoop, List.length_cons, searchLoop_len cfg req rest]

theorem recLoop_len (cfg : Cfg) (prefs : UserPreferences) (titles : List NetflixTitle) :
    ∀ (recs : List Recommendation) (df : List Row),
      (∀ rec ∈ recs, ∃ t ∈ titles, rec.title = t.title) →
      ((recLoop cfg prefs titles recs df).1).length = recs.length
  | [], _, _ => rfl
  | rec :: rest, df, hall => by
    have hex : ∃ t, t ∈ titles ∧ (t.title == rec.title) = true := by
      rcases hall rec (List.mem_cons_self rec rest) with ⟨t, ht, he⟩
      exact ⟨t, ht, by simp [he]⟩
    cases hf : titles.find? (fun t => t.title == rec.title) with
    | none =>
      exfalso
      have := List.find?_isSome.mpr hex
      rw [hf] at this
      cases this
    | some mt =>
      simp only [recLoop, hf, List.length_cons]
      exact congrArg (· + 1) (recLoop_len cfg prefs titles rest _
        (fun r hr => hall r (List.mem_cons_of_mem rec hr)))

/-- C8 amended: `total_count` equals the number of recommendations that
survived the score threshold **and the ranker's own top-10 cut**, before the
caller's limit; the recommendations list is additionally truncated to the
limit, so `total_count` can strictly exceed its length.  `SearchResponse`'s
`total_count` instead equals the post-truncation result length.  (As stated
the claim is false: with more than ten threshold survivors, `total_count` is
10, not the survivor count.) -/
theorem claim8_total_count_amended (cfg : Cfg) (df : List Row) (req : RecommendationRequest)
    (resp : RecommendationResponse) (df' : List Row) (recs : List Recommendation)
    (h : getRecommendationsE cfg df req = Except.ok (resp, df'))
    (hb : buildRecs cfg.groqClient req.preferences (df.map rowToTitle) = Except.ok recs) :
    resp.total_count = min 10 recs.length ∧
    resp.recommendations.length = min req.limit resp.total_count ∧
    (∀ (sreq : SearchRequest) (sresp : SearchResponse) (sdf' : List Row),
      searchTitlesE cfg df sreq = Except.ok (sresp, sdf') →
      sresp.total_count = sresp.results.length ∧ sresp.results.length ≤ sreq.limit) := by
  rw [getRecommendationsE, aiGetRecommendations, hb] at h
  dsimp only at h
  have hm : ∀ rec ∈ (recs.mergeSort (fun a b => decide (b.score ≤ a.score))).take 10,
      ∃ t ∈ df.map rowToTitle, rec.title = t.title := fun rec hmem =>
    buildRecs_title cfg.groqClient req.preferences (df.map rowToTitle) recs hb rec
      (List.mem_mergeSort.mp (List.mem_of_mem_take hmem))
  have hlen := recLoop_len cfg req.preferences (df.map rowToTitle)
    ((recs.mergeSort (fun a b => decide (b.score ≤ a.score))).take 10) df hm
  cases h
  refine ⟨?_, ?_, ?_⟩
  · show ((recLoop cfg req.preferences (df.map rowToTitle)
        ((recs.mergeSort (fun a b => decide (b.score ≤ a.score))).take 10) df).1).length =
      min 10 recs.length
    rw [hlen, List.length_take, List.length_mergeSort]
  · show (((recLoop cfg req.preferences (df.map rowToTitle)
        ((recs.mergeSort (fun a b => decide (b.score ≤ a.score))).take 10) df).1).take
          req.limit).length = _
    rw [List.length_take]
  · intro sreq sresp sdf' hs
    rw [searchTitlesE] at hs
    cases hres : (if sreq.search_type = "all" then
        Except.ok (searchAllColumns df (pyLower sreq.query))
      else searchSpecificColumn df (pyLower sreq.query) sreq.search_type) with
    | error e => rw [hres] at hs; cases hs
    | ok results =>
      rw [hres] at hs
      dsimp only at hs
      cases hs
      constructor
      · rfl
      · show ((searchLoop cfg sreq (((if sreq.smart_query then
            smartRefine cfg sreq.query results else results)).take sreq.limit) df).1).length ≤
          sreq.limit
        rw [searchLoop_len, List.length_take]
        exact min_le_left _ _

set_option maxRecDepth 8000 in
/-- Counterexample for C8: eleven candidates survive the threshold, yet
`total_count` is 10 (the ranker's cap), not 11; with limit 3 the returned
list has 3 entries. -/
theorem claim8_counterexample :
    ((buildRecs none prefsCount (dfEleven.map rowToTitle)).map List.length).toOption = some 11 ∧
    ((getRecommendationsE cfgPlain dfEleven
        { preferences := prefsCount, limit := 3 }).toOption.map
      (fun p => (p.1.total_count, p.1.recommendations.length))) = some (10, 3) :=
  ⟨by with_unfolding_all decide, by with_unfolding_all decide⟩

/-- Witness for the amended C8 on the empty table. -/
theorem claim8_witness :
    respEmpty.total_count = min 10 ([] : List Recommendation).length ∧
    respEmpty.recommendations.length = min reqCount.limit respEmpty.total_count ∧
    (∀ (sreq : SearchRequest) (sresp : SearchResponse) (sdf' : List Row),
      searchTitlesE cfgPlain [] sreq = Except.ok (sresp, sdf') →
      sresp.total_count = sresp.results.length ∧ sresp.results.length ≤ sreq.limit) :=
  claim8_total_count_amended cfgPlain [] reqCount respEmpty [] []
    (by with_unfolding_all rfl) (by with_unfolding_all rfl)

/-! ### C1: trailer-URL idempotence -/

theorem setTrailerUrl_getElem?_ne :
    ∀ (df : List Row) (j : Nat) (url : String) (i : Nat), i ≠ j →
      (setTrailerUrl df j url)[i]? = df[i]?
  | [], _, _, _, _ => rfl
  | r :: rs, 0, url, 0, h => absurd rfl h
  | r :: rs, 0, url, i + 1, _ => by simp [setTrailerUrl]
  | r :: rs, j + 1, url, 0, _ => by simp [setTrailerUrl]
  | r :: rs, j + 1, url, i + 1, h => by
    simp only [setTrailerUrl, List.getElem?_cons_succ]
    exact setTrailerUrl_getElem?_ne rs j url i (fun he => h (congrArg (· + 1) he))

theorem mem_enumFrom_getElem? {α : Type} :
    ∀ (l : List α) (n : Nat) (p : Nat × α), p ∈ l.enumFrom n →
      n ≤ p.1 ∧ l[p.1 - n]? = some p.2
  | [], _, _, h => by cases h
  | a :: l, n, p, h => by
    rw [List.enumFrom_cons] at h
    rcases List.mem_cons.mp h with he | hm
    · subst he
      exact ⟨le_refl n, by simp⟩
    · rcases mem_enumFrom_getElem? l (n + 1) p hm with ⟨h1, h2⟩
      refine ⟨le_trans (Nat.le_succ n) h1, ?_⟩
      have he : p.1 - n = (p.1 - (n + 1)) + 1 := by omega
      rw [he, List.getElem?_cons_succ]
      exact h2

theorem mem_enum_getElem? {α : Type} {l : List α} {p : Nat × α} (h : p ∈ l.enum) :
    l[p.1]? = some p.2 := by
  have := (mem_enumFrom_getElem? l 0 p h).2
  simpa using this

/-- The search-path per-row step never touches the table unless the row's
cached cell was blank, and then only at that row's index. -/
theorem searchStep_snd_cases (cfg : Cfg) (req : SearchRequest) (j : Nat) (row : Row)
    (df : List Row) :
    (searchStepTrailer cfg req j row df).2 = df ∨
    (pyStrip row.trailer_url = "" ∧
      ∃ url, (searchStepTrailer cfg req j row df).2 = setTrailerUrl df j url) := by
  rw [searchStepTrailer]
  cases cachedTrailer cfg.yt row.title (pyStrip row.trailer_url) with
  | some v => exact Or.inl rfl
  | none =>
    dsimp only
    by_cases ht : req.include_trailers
    · rw [if_pos ht]
      cases searchTrailer cfg.yt row.title row.release_year with
      | some v =>
        dsimp only
        by_cases he : pyStrip row.trailer_url = ""
        · rw [if_pos he]
          exact Or.inr ⟨he, getTrailerUrl v.video_id, rfl⟩
        · rw [if_neg he]
          exact Or.inl rfl
      | none => exact Or.inl rfl
    · rw [if_neg ht]
      exact Or.inl rfl

theorem searchLoop_preserve (cfg : Cfg) (req : SearchRequest) (i : Nat) :
    ∀ (sel : List (Nat × Row)) (df : List Row),
      (∀ p ∈ sel, p.1 = i → pyStrip p.2.trailer_url ≠ "") →
      ((searchLoop cfg req sel df).2)[i]? = df[i]?
  | [], _, _ => rfl
  | (j, row) :: rest, df, hall => by
    simp only [searchLoop]
    have hrest : ∀ p ∈ rest, p.1 = i → pyStrip p.2.trailer_url ≠ "" :=
      fun p hp => hall p (List.mem_cons_of_mem _ hp)
    rw [searchLoop_preserve cfg req i rest _ hrest]
    rcases searchStep_snd_cases cfg req j row df with hdf | ⟨hblank, url, hset⟩
    · rw [hdf]
    · rw [hset]
      have hji : i ≠ j := by
        intro he
        exact hall (j, row) (List.mem_cons_self _ _) (by rw [← he]) hblank
      exact setTrailerUrl_getElem?_ne df j url i hji

theorem fillLoop_preserve (yt : YT) (i : Nat) :
    ∀ (idxs : List Nat) (df : List Row) (u f : Nat), i ∉ idxs →
      ((fillLoop yt idxs df u f).2.2)[i]? = df[i]?
  | [], _, _, _, _ => rfl
  | idx :: rest, df, u, f, hn => by
    have hik : i ≠ idx := fun he => hn (he ▸ List.mem_cons_self idx rest)
    have hrest : i ∉ rest := fun hm => hn (List.mem_cons_of_mem idx hm)
    rw [fillLoop]
    cases hidx : df[idx]? with
    | none =>
      dsimp only
      exact fillLoop_preserve yt i rest df u (f + 1) hrest
    | some row =>
      dsimp only
      by_cases htitle : pyStrip row.title = ""
      · rw [if_pos htitle]
        exact fillLoop_preserve yt i rest df u f hrest
      · rw [if_neg htitle]
        cases searchTrailer yt (pyStrip row.title) row.release_year with
        | some video =>
          dsimp only
          rw [fillLoop_preserve yt i rest _ (u + 1) f hrest]
          exact setTrailerUrl_getElem?_ne df idx _ i hik
        | none => exact fillLoop_preserve yt i rest df u (f + 1) hrest

/-- The recommendation-path write preserves every row whose cached cell is
non-blank, provided titles are pairwise distinct (the write targets all rows
sharing the matched title, but the guard then inspects exactly that row). -/
theorem recStep_preserve (cfg : Cfg) (prefs : UserPreferences) (mt : NetflixTitle)
    (df : List Row) (i : Nat) (r : Row)
    (huniq : df.Pairwise (fun a b => a.title ≠ b.title))
    (hget : df[i]? = some r) (hne : pyStrip r.trailer_url ≠ "") :
    ((recStepTrailer cfg prefs mt df).2)[i]? = some r := by
  rw [recStepTrailer]
  cases (match (df.find? (fun row => row.title == mt.title)).map
      (fun row => pyStrip row.trailer_url) with
    | some e => cachedTrailer cfg.yt mt.title e
    | none => none) with
  | some v => exact hget
  | none =>
    dsimp only
    by_cases ht : prefs.include_trailers
    · rw [if_pos ht]
      cases searchTrailer cfg.yt mt.title mt.release_year with
      | some v =>
        dsimp only
        by_cases hguard : ((df.find? (fun row => row.title == mt.title)).map
            (fun row => pyStrip row.trailer_url)).getD "" = ""
        · rw [if_pos hguard]
          rw [List.getElem?_map, hget]
          dsimp only [Option.map]
          by_cases hrt : r.title = mt.title
          · exfalso
            have hrmem : r ∈ df := List.getElem?_mem hget
            cases hf : df.find? (fun row => row.title == mt.title) with
            | none =>
              have : (df.find? (fun row => row.title == mt.title)).isSome :=
                List.find?_isSome.mpr ⟨r, hrmem, by simp [hrt]⟩
              rw [hf] at this
              cases this
            | some r2 =>
              have hr2mem : r2 ∈ df := List.mem_of_find?_eq_some hf
              have hr2t : r2.title = mt.title := by
                have := List.find?_some hf
                simpa using this
              have hr2r : r2 = r := by
                by_contra hner
                have hsym : Symmetric (fun a b : Row => a.title ≠ b.title) :=
                  fun _ _ hab => Ne.symm hab
                exact (huniq.forall hsym hr2mem hrmem hner) (hr2t.trans hrt.symm)
              rw [hf, hr2r] at hguard
              simp only [Option.map, Option.getD] at hguard
              exact hne hguard
          · have : (r.title == mt.title) = false := by
              simp [hrt]
            simp [this]
        · rw [if_neg hguard]
          exact hget
      | none => exact hget
    · rw [if_neg ht]
      exact hget

/-- The per-row write of the recommendation path does not change titles, so
pairwise-distinctness of titles is an invariant. -/
theorem recStep_uniq (cfg : Cfg) (prefs : UserPreferences) (mt : NetflixTitle)
    (df : List Row) (huniq : df.Pairwise (fun a b => a.title ≠ b.title)) :
    ((recStepTrailer cfg prefs mt df).2).Pairwise (fun a b => a.title ≠ b.title) := by
  rw [recStepTrailer]
  cases (match (df.find? (fun row => row.title == mt.title)).map
      (fun row => pyStrip row.trailer_url) with
    | some e => cachedTrailer cfg.yt mt.title e
    | none => none) with
  | some v => exact huniq
  | none =>
    dsimp only
    by_cases ht : prefs.include_trailers
    · rw [if_pos ht]
      cases searchTrailer cfg.yt mt.title mt.release_year with
      | some v =>
        dsimp only
        by_cases hguard : ((df.find? (fun row => row.title == mt.title)).map
            (fun row => pyStrip row.trailer_url)).getD "" = ""
        · rw [if_pos hguard]
          refine List.pairwise_map.mpr (huniq.imp ?_)
          intro a b hab
          have hta : (if a.title == mt.title then
              { a with trailer_url := getTrailerUrl v.video_id } else a).title = a.title := by
            split <;> rfl
          have htb : (if b.title == mt.title then
              { b with trailer_url := getTrailerUrl v.video_id } else b).title = b.title := by
            split <;> rfl
          rw [hta, htb]
          exact hab
        · rw [if_neg hguard]
          exact huniq
      | none => exact huniq
    · rw [if_neg ht]
      exact huniq

theorem recLoop_preserve (cfg : Cfg) (prefs : UserPreferences)
    (titles : List NetflixTitle) (i : Nat) (r : Row) :
    ∀ (recs : List Recommendation) (df : List Row),
      df.Pairwise (fun a b => a.title ≠ b.title) →
      df[i]? = some r → pyStrip r.trailer_url ≠ "" →
      ((recLoop cfg prefs titles recs df).2)[i]? = some r
  | [], df, _, hget, _ => hget
  | rec :: rest, df, huniq, hget, hne => by
    rw [recLoop]
    cases titles.find? (fun t => t.title == rec.title) with
    | none =>
      dsimp only
      exact recLoop_preserve cfg prefs titles i r rest df huniq hget hne
    | some mt =>
      dsimp only
      exact recLoop_preserve cfg prefs titles i r rest _
        (recStep_uniq cfg prefs mt df huniq)
        (recStep_preserve cfg prefs mt df i r huniq hget hne) hne

theorem smartRefine_sub (cfg : Cfg) (q : String) (results : List (Nat × Row))
    (p : Nat × Row) (h : p ∈ smartRefine cfg q results) : p ∈ results := by
  rw [smartRefine] at h
  cases hcl : cfg.groqClient with
  | none => rwa [hcl] at h
  | some f =>
    rw [hcl] at h
    exact (List.mem_filter.mp h).1

theorem searchResults_sub_enum (df : List Row) (q st : String)
    (results : List (Nat × Row))
    (h : (if st = "all" then Except.ok (searchAllColumns df q)
          else searchSpecificColumn df q st) = Except.ok results) :
    ∀ p ∈ results, p ∈ df.enum := by
  intro p hp
  split at h
  · cases h
    exact (List.mem_filter.mp hp).1
  · rw [searchSpecificColumn] at h
    split at h
    · cases h
      cases hp
    · split at h
      · cases h
        exact (List.mem_filter.mp hp).1
      · cases h

set_option maxRecDepth 8000 in
/-- Counterexample for C1: two rows share the title `X`; the first has no
cached URL, the second has a non-empty, non-placeholder cached URL.  During
`get_recommendations` the discovered URL is persisted to **all** rows titled
`X`, overwriting the second row's existing cell. -/
theorem claim1_counterexample :
    rowX2.trailer_url = "https://www.youtube.com/watch?v=abc" ∧
    pyStrip rowX2.trailer_url ≠ "" ∧
    pyLower (pyStrip rowX2.trailer_url) ≠ "nan" ∧
    ((getRecommendationsE cfgPlain [rowX1, rowX2]
        { preferences := prefsYears, limit := 10 }).toOption.map
      (fun p => p.2.map Row.trailer_url)) =
      some ["https://www.youtube.com/watch?v=def456",
            "https://www.youtube.com/watch?v=def456"] := by
  refine ⟨rfl, by decide, by decide, by with_unfolding_all decide⟩

/-- C1 amended: a non-blank (and non-`'nan'`) `trailer_url` cell is never
overwritten by the per-record search resolution or the batch fill; the
recommendation-path resolution persists per *title* rather than per record,
so its no-overwrite guarantee additionally requires the table's titles to be
pairwise distinct (with duplicate titles a later duplicate row can be
overwritten, see the counterexample). -/
theorem claim1_trailer_idempotent_amended (cfg : Cfg) (df : List Row)
    (sreq : SearchRequest) (rreq : RecommendationRequest) (maxU : Nat)
    (i : Nat) (r : Row) (hget : df[i]? = some r)
    (hne : pyStrip r.trailer_url ≠ "") (hnan : pyStrip r.trailer_url ≠ "nan") :
    (∀ resp df2, searchTitlesE cfg df sreq = Except.ok (resp, df2) → df2[i]? = some r) ∧
    ((fillTrailerUrls cfg.yt df maxU).2)[i]? = some r ∧
    (df.Pairwise (fun a b => a.title ≠ b.title) →
      ∀ resp df2, getRecommendationsE cfg df rreq = Except.ok (resp, df2) →
        df2[i]? = some r) := by
  refine ⟨?_, ?_, ?_⟩
  · intro resp df2 hs
    rw [searchTitlesE] at hs
    cases hres : (if sreq.search_type = "all" then
        Except.ok (searchAllColumns df (pyLower sreq.query))
      else searchSpecificColumn df (pyLower sreq.query) sreq.search_type) with
    | error e => rw [hres] at hs; cases hs
    | ok results =>
      rw [hres] at hs
      dsimp only at hs
      cases hs
      have hall : ∀ p ∈ (if sreq.smart_query then
          smartRefine cfg sreq.query results else results).take sreq.limit,
          p.1 = i → pyStrip p.2.trailer_url ≠ "" := by
        intro p hp hpi
        have hpr : p ∈ results := by
          have hp' := List.mem_of_mem_take hp
          split at hp'
          · exact smartRefine_sub cfg sreq.query results p hp'
          · exact hp'
        have henum := searchResults_sub_enum df (pyLower sreq.query) sreq.search_type
          results hres p hpr
        have := mem_enum_getElem? henum
        rw [hpi, hget] at this
        cases this
        exact hne
      rw [searchLoop_preserve cfg sreq i _ df hall]
      exact hget
  · rw [fillTrailerUrls]
    split
    · exact hget
    · dsimp only
      have hnot : i ∉ (((df.enum.filter
          (fun p => trailerMissing p.2.trailer_url)).map Prod.fst).take maxU) := by
        intro hmem
        have hmiss := List.mem_of_mem_take hmem
        rcases List.mem_map.mp hmiss with ⟨p, hp, hpi⟩
        rcases List.mem_filter.mp hp with ⟨hpe, hpm⟩
        have := mem_enum_getElem? hpe
        rw [hpi, hget] at this
        cases this
        rcases Bool.or_eq_true _ _ |>.mp hpm with h1 | h1
        · exact hne (by simpa [trailerMissing] using h1)
        · exact hnan (by simpa [trailerMissing] using h1)
      rw [fillLoop_preserve cfg.yt i _ df 0 0 hnot]
      exact hget
  · intro huniq resp df2 hr
    rw [getRecommendationsE] at hr
    cases hai : aiGetRecommendations cfg.groqClient rreq.preferences (df.map rowToTitle) with
    | error e => rw [hai] at hr; cases hr
    | ok ai_recommendations =>
      rw [hai] at hr
      dsimp only at hr
      cases hr
      exact recLoop_preserve cfg rreq.preferences (df.map rowToTitle) i r
        ai_recommendations df huniq hget hne

/-- Witness for the amended C1 on a one-row table with a cached URL. -/
theorem claim1_witness :
    (∀ resp df2, searchTitlesE cfgPlain [rowX2] { query := "x" } = Except.ok (resp, df2) →
      df2[0]? = some rowX2) ∧
    ((fillTrailerUrls cfgPlain.yt [rowX2] 5).2)[0]? = some rowX2 ∧
    ([rowX2].Pairwise (fun a b => a.title ≠ b.title) →
      ∀ resp df2, getRecommendationsE cfgPlain [rowX2]
          { preferences := prefsYears, limit := 10 } = Except.ok (resp, df2) →
        df2[0]? = some rowX2) :=
  claim1_trailer_idempotent_amended cfgPlain [rowX2] { query := "x" }
    { preferences := prefsYears, limit := 10 } 5 0 rowX2 rfl (by decide) (by decide)
